import Mathlib

/-!
# Shallow embedding of the rolling-plan analytics pipeline (src/app.py)

The program is a single pandas script: it loads a sheet, selects the
"Production"/"Sales" columns, melts each selection into long form, outer-merges
the two long tables on (Customer, Product, Month), left-joins a per-(customer,
product) deficit table, derives MonthText / YearText / MonthNum / Year / Date
columns from the melted `Month` value, and builds date-keyed views
(filters, monthly summary, previous/next comparisons, forecast, anomalies,
CSV export).

Modelling conventions, each noted where it is used:
* Cell values are modelled post numeric coercion (`pd.to_numeric(errors='coerce')`,
  lines 44-45): a cell is `Option ℚ`, `none` standing for NaN / empty /
  non-numeric.  Floats are modelled as exact rationals.
* A pandas NaN produced by an operation (failed regex extract, unmatched join
  side, failed `.map`) is `none` of the corresponding `Option` type.
* `pd.to_datetime(dict(year=…, month=…, day=1))` (line 41) assembles dates with
  the `%Y%m%d` fast path, which sends rows whose `month` component is NaN to
  `NaT` instead of raising; hence `date : Option Date` with `none` for NaT.
* List order of a merge result is modelled matched-pairs-first (left-major),
  then right-only rows; the claims below are about contents, counts and
  multisets, never about pandas' key-sorted display order.
-/

namespace Analytics

/-- Whether the character list `pat` is an initial segment of `s`. -/
def startsWith : List Char → List Char → Bool
  | [], _ => true
  | _ :: _, [] => false
  | p :: ps, c :: cs => p == c && startsWith ps cs

/-- Whether `pat` occurs as a contiguous substring of `s`. -/
def hasSub : List Char → List Char → Bool
  | [], pat => pat.isEmpty
  | c :: cs, pat => startsWith pat (c :: cs) || hasSub cs pat

/-- Python's `pat in col` substring test (lines 18-19 use `'Production' in str(col)`). -/
def containsStr (s pat : String) : Bool := hasSub s.toList pat.toList

/-- The month alternation of the regex `(Oct|Nov|Dec|Jan|Feb)` on line 35,
in the alternation's order. -/
def monthTokens : List String := ["Oct", "Nov", "Dec", "Jan", "Feb"]

/-- The alternative that matches at the head of `s`, first in alternation order. -/
def monthAt (s : List Char) : Option String :=
  monthTokens.find? fun t => startsWith t.toList s

/-- Leftmost match of the month alternation: regex search scans positions left to
right and at each position tries the alternatives in order. -/
def monthScan : List Char → Option String
  | [] => none
  | c :: cs =>
    match monthAt (c :: cs) with
    | some t => some t
    | none => monthScan cs

/-- Line 35: `merged['Month'].str.extract(r"(Oct|Nov|Dec|Jan|Feb)")`; `none` is
the NaN a failed extract leaves. -/
def monthTextF (s : String) : Option String := monthScan s.toList

/-- Line 36 writes the raw string `r"(\\d{2})"`, so the regex is
`\\d{2}`: an escaped literal backslash followed by the letter `d` twice.  The
pattern therefore matches (and captures) the three characters `\dd`, never a
pair of digits. -/
def yearPat : List Char := ['\\', 'd', 'd']

/-- Line 36: `merged['Month'].str.extract(r"(\\d{2})")`.  The capture, when the
literal `\dd` occurs in the month string; NaN (`none`) otherwise. -/
def yearTextF (s : String) : Option String :=
  if hasSub s.toList yearPat then some "\\dd" else none

/-- Decimal digit-string value, for `pd.to_numeric(…, errors='coerce')` applied
to the extracted year text (line 39): a string that is not a plain digit run
coerces to NaN (`none`). -/
def toNumericNat (s : String) : Option ℕ :=
  if s.toList ≠ [] ∧ s.toList.all Char.isDigit then
    some (s.toList.foldl (fun a c => 10 * a + (c.toNat - '0'.toNat)) 0)
  else none

/-- Line 37: `month_map = {'Oct': 10, 'Nov': 11, 'Dec': 12, 'Jan': 1, 'Feb': 2}`;
`.map` over it leaves NaN (`none`) for a key outside the dict. -/
def monthMap (m : String) : Option ℕ :=
  if m = "Oct" then some 10
  else if m = "Nov" then some 11
  else if m = "Dec" then some 12
  else if m = "Jan" then some 1
  else if m = "Feb" then some 2
  else none

/-- One row of the loaded sheet (after `header=2` and `dropna(how='all')`):
Customer, Product and the value cells by column name, already numerically
coerced (`none` = NaN / missing / non-numeric). -/
structure RawRow where
  customer : String
  product : String
  cell : String → Option ℚ

/-- The loaded sheet: its column-name list and its rows. -/
structure Sheet where
  cols : List String
  rows : List RawRow

/-- Line 22: `deficit_col = 'Dificit Qty.'`. -/
def deficitColName : String := "Dificit Qty."

/-- Line 18: `[col for col in df.columns if 'Production' in str(col)]`. -/
def productionCols (cols : List String) : List String :=
  cols.filter fun c => containsStr c "Production"

/-- Line 19: `[col for col in df.columns if 'Sales' in str(col)]`. -/
def salesCols (cols : List String) : List String :=
  cols.filter fun c => containsStr c "Sales"

/-- One row of a melted (long-form) table: line 25/26's
`(Customer, Product, Month, value)`.  `month` holds the melted column's full
name (`var_name='Month'` keeps the original column name). -/
structure LongRow where
  customer : String
  product : String
  month : String
  value : Option ℚ
deriving DecidableEq

/-- Pandas `df.melt(id_vars=[Customer, Product], value_vars=vs, var_name='Month')`:
one block of all rows per value column, in column order. -/
def meltTable (sh : Sheet) (valueVars : List String) : List LongRow :=
  valueVars.flatMap fun c => sh.rows.map fun r => ⟨r.customer, r.product, c, r.cell c⟩

/-- Line 25: `prod_data`. -/
def prodData (sh : Sheet) : List LongRow := meltTable sh (productionCols sh.cols)

/-- Line 26: `sales_data`. -/
def salesData (sh : Sheet) : List LongRow := meltTable sh (salesCols sh.cols)

/-- A row of line 27's merge result: the three key columns and both metrics,
either possibly NaN (unmatched side). -/
structure MergeRow where
  customer : String
  product : String
  month : String
  production : Option ℚ
  sales : Option ℚ
deriving DecidableEq

/-- Key equality for line 27's `on=[customer_col, product_col, 'Month']`. -/
def sameKey (l r : LongRow) : Bool :=
  decide (l.customer = r.customer ∧ l.product = r.product ∧ l.month = r.month)

/-- Line 27: `pd.merge(prod_data, sales_data, on=[Customer, Product, Month],
how='outer')`.  Matched key pairs join (cartesian within a key group); a row of
either side with no partner survives with NaN on the other side.  Contents are
faithful; the list order is matched-left-major then right-only rows. -/
def outerMerge (L R : List LongRow) : List MergeRow :=
  (L.flatMap fun l =>
    let ms := R.filter (sameKey l)
    if ms.isEmpty then [⟨l.customer, l.product, l.month, l.value, none⟩]
    else ms.map fun r => ⟨l.customer, l.product, l.month, l.value, r.value⟩) ++
  ((R.filter fun r => !(L.any fun l => sameKey l r)).map fun r =>
    ⟨r.customer, r.product, r.month, none, r.value⟩)

/-- A merge row with the deficit column attached (line 32's left join), `none`
when the pair has no deficit row (or the sheet has no deficit column). -/
structure DefRow where
  customer : String
  product : String
  month : String
  production : Option ℚ
  sales : Option ℚ
  deficit : Option ℚ
deriving DecidableEq

/-- Line 31: `df[[customer_col, product_col, deficit_col]].dropna()`, keyed
per (customer, product) with its deficit value.  (Customer and product are
total strings in the model, so `dropna` reduces to dropping rows whose deficit
cell is NaN.) -/
def deficitData (sh : Sheet) : List (String × String × ℚ) :=
  sh.rows.filterMap fun r => (r.cell deficitColName).map fun v => (r.customer, r.product, v)

/-- Line 32: `pd.merge(merged, deficit_data, on=[Customer, Product], how='left')`. -/
def leftJoinDeficit (M : List MergeRow) (D : List (String × String × ℚ)) : List DefRow :=
  M.flatMap fun m =>
    let ms := D.filter fun d => decide (d.1 = m.customer ∧ d.2.1 = m.product)
    if ms.isEmpty then [⟨m.customer, m.product, m.month, m.production, m.sales, none⟩]
    else ms.map fun d => ⟨m.customer, m.product, m.month, m.production, m.sales, some d.2.2⟩

/-- When the sheet has no deficit column, the merge of lines 30-32 is skipped
and no deficit values exist. -/
def addNoDeficit (M : List MergeRow) : List DefRow :=
  M.map fun m => ⟨m.customer, m.product, m.month, m.production, m.sales, none⟩

/-- A canonical calendar date as line 41 assembles it (day is always 1). -/
structure Date where
  year : ℕ
  month : ℕ
  day : ℕ
deriving DecidableEq

/-- Chronological sort key of an assembled date (the `%Y%m%d` integer). -/
def Date.key (d : Date) : ℕ := d.year * 10000 + d.month * 100 + d.day

/-- One row of the fully derived `merged` table: the merge and deficit columns
plus the five helper columns lines 35-41 assign. -/
structure Row where
  customer : String
  product : String
  month : String
  production : Option ℚ
  sales : Option ℚ
  deficit : Option ℚ
  monthText : Option String
  yearText : Option String
  monthNum : Option ℕ
  year : ℕ
  date : Option Date
deriving DecidableEq

/-- Lines 35-41 applied to one row: extract MonthText and YearText from the
Month string, map MonthText through the month dict, coerce YearText to a
number with NaN defaulted to 25 (`fillna(25)`) plus 2000, add one year for
months 1 and 2 (fiscal rollover), and assemble the first-of-month date —
NaT (`none`) when MonthNum is NaN. -/
def normalizeRow (r : DefRow) : Row :=
  let mt := monthTextF r.month
  let yt := yearTextF r.month
  let mn := mt.bind monthMap
  let yr0 := 2000 + ((yt.bind toNumericNat).getD 25)
  let yr := if mn = some 1 ∨ mn = some 2 then yr0 + 1 else yr0
  { customer := r.customer, product := r.product, month := r.month,
    production := r.production, sales := r.sales, deficit := r.deficit,
    monthText := mt, yearText := yt, monthNum := mn, year := yr,
    date := mn.map fun m => ⟨yr, m, 1⟩ }

/-- The derived `merged` dataframe: whether the deficit column was attached,
the column-name list, and the rows. -/
structure Table where
  hasDeficitCol : Bool
  cols : List String
  rows : List Row
deriving DecidableEq

/-- The column names of `merged` after lines 25-41, in assignment order:
melt gives Customer, Product, Month, Production; the outer merge appends
Sales; the conditional deficit join appends 'Dificit Qty.'; lines 35-41 append
the five helper columns. -/
def mergedColsList (hasDef : Bool) : List String :=
  ["Customer", "Product", "Month", "Production", "Sales"] ++
    (if hasDef then [deficitColName] else []) ++
    ["MonthText", "YearText", "MonthNum", "Year", "Date"]

/-- Line 46: `merged['Dificit Qty.'] = pd.to_numeric(merged['Dificit Qty.'], …)`.
The right-hand side subscripts `merged` with the deficit column name
unconditionally; when the column was never attached (no `Dificit Qty.` in the
sheet, so line 32's join was skipped) the subscript raises `KeyError`.  Values
themselves are already numeric in the model. -/
def coerceNumericStep (t : Table) : Except String Table :=
  if t.hasDeficitCol then .ok t else .error "KeyError: Dificit Qty."

/-- Lines 18-46: melt both column selections, outer-merge them on
(Customer, Product, Month), left-join the deficit table when the deficit
column exists, derive the helper columns, and run the numeric-coercion step
(whose deficit subscript can raise). -/
def buildMerged (sh : Sheet) : Except String Table :=
  let m := outerMerge (prodData sh) (salesData sh)
  let hasDef := decide (deficitColName ∈ sh.cols)
  let defRows := if hasDef then leftJoinDeficit m (deficitData sh) else addNoDeficit m
  coerceNumericStep
    { hasDeficitCol := hasDef, cols := mergedColsList hasDef,
      rows := defRows.map normalizeRow }

/-- Line 55 for a given date value: `merged[merged['Date'] == d]`.  A NaT date
(`none`) equals no date value, so such rows are excluded. -/
def rowsAt (t : Table) (d : Date) : List Row :=
  t.rows.filter fun r => decide (r.date = some d)

/-- Lines 56-57: the customer multiselect narrows `filtered` only when the
selection is non-empty. -/
def applyCustFilter (sel : List String) (rows : List Row) : List Row :=
  if sel.isEmpty then rows else rows.filter fun r => decide (r.customer ∈ sel)

/-- Lines 58-59: the product multiselect, likewise. -/
def applyProdFilter (sel : List String) (rows : List Row) : List Row :=
  if sel.isEmpty then rows else rows.filter fun r => decide (r.product ∈ sel)

/-- Lines 55-59: `filtered` for a selected date and the two multiselects. -/
def filteredView (t : Table) (d : Date) (fc fp : List String) : List Row :=
  applyProdFilter fp (applyCustFilter fc (rowsAt t d))

/-- Insertion of a date into a chronologically sorted list. -/
def insertDate (d : Date) : List Date → List Date
  | [] => [d]
  | e :: es => if d.key ≤ e.key then d :: e :: es else e :: insertDate d es

/-- Chronological insertion sort, for Python's `sorted`. -/
def sortDates (l : List Date) : List Date := l.foldr insertDate []

/-- Lines 50 and 81: `sorted(merged['Date'].dropna().unique())` — the distinct
non-NaT dates, ascending. -/
def dateList (t : Table) : List Date :=
  sortDates (t.rows.filterMap (·.date)).dedup

/-- One row of `monthly_summary` (line 70): a date group's production and
sales sums. -/
structure SRow where
  date : Date
  production : ℚ
  sales : ℚ
deriving DecidableEq

/-- A date group's production sum: pandas `groupby(…).sum()` skips NaN and
gives an all-NaN group 0 (`min_count=0`). -/
def groupProdSum (t : Table) (d : Date) : ℚ :=
  (rowsAt t d).foldl (fun a r => a + r.production.getD 0) 0

/-- A date group's sales sum, likewise. -/
def groupSalesSum (t : Table) (d : Date) : ℚ :=
  (rowsAt t d).foldl (fun a r => a + r.sales.getD 0) 0

/-- Line 70: `merged.groupby('Date')[['Production', 'Sales']].sum().reset_index()` —
one row per distinct non-NaT date (groupby drops NaT keys and sorts them). -/
def monthlySummary (t : Table) : List SRow :=
  (dateList t).map fun d => ⟨d, groupProdSum t d, groupSalesSum t d⟩

/-- The trend chart's input (lines 69-71): it is computed from `merged`, not
from `filtered`, although a date and the two multiselects are in scope. -/
def trendSummary (t : Table) (dSel : Date) (fc fp : List String) : List SRow :=
  monthlySummary t

/-- A row of a comparison table as lines 92/100 display it: the key pair and
the two signed differences. -/
structure CompRow where
  customer : String
  product : String
  productionDiff : Option ℚ
  salesDiff : Option ℚ
deriving DecidableEq

/-- NaN-propagating subtraction of two possibly-NaN values. -/
def osub : Option ℚ → Option ℚ → Option ℚ
  | some a, some b => some (a - b)
  | _, _ => none

/-- Pandas `pd.merge(xs, ys, on=[customer_col, product_col])` (inner, lines 89/97):
every pair of a left row and a right row agreeing on customer and product, in
left-major order. -/
def innerJoinCP (xs ys : List Row) : List (Row × Row) :=
  xs.flatMap fun a =>
    (ys.filter fun b => decide (b.customer = a.customer ∧ b.product = a.product)).map
      fun b => (a, b)

/-- Lines 88-91, `comp_prev` for a selected date and a previous date: join
`filtered` with the previous period's rows on (customer, product) and take
`current − prev` for both metrics. -/
def compPrev (t : Table) (dSel dPrev : Date) (fc fp : List String) : List CompRow :=
  (innerJoinCP (filteredView t dSel fc fp) (rowsAt t dPrev)).map fun p =>
    ⟨p.1.customer, p.1.product, osub p.1.production p.2.production,
      osub p.1.sales p.2.sales⟩

/-- Lines 96-99, `comp_next`: join `filtered` with the next period's rows and
take `next − current` for both metrics. -/
def compNext (t : Table) (dSel dNext : Date) (fc fp : List String) : List CompRow :=
  (innerJoinCP (filteredView t dSel fc fp) (rowsAt t dNext)).map fun p =>
    ⟨p.1.customer, p.1.product, osub p.2.production p.1.production,
      osub p.2.sales p.1.sales⟩

/-- The date `dPrev` immediately precedes `dCurr` in the sorted distinct date list
(lines 81-84): both are dates of the table, `dPrev` is earlier, and no table
date lies strictly between them. -/
def adjacentDates (t : Table) (dPrev dCurr : Date) : Prop :=
  dPrev ∈ dateList t ∧ dCurr ∈ dateList t ∧ dPrev.key < dCurr.key ∧
    ∀ d ∈ dateList t, d.key ≤ dPrev.key ∨ dCurr.key ≤ d.key

/-- Line 104: `monthly_summary.dropna()`.  The groupby sums are never NaN
(`min_count=0`), and the dates of `monthly_summary` are the non-NaT distinct
dates, so nothing is dropped. -/
def forecastData (t : Table) : List SRow := monthlySummary t

/-- Lines 105-109 for one metric series: `MonthIndex = arange(n)`,
`LinearRegression().fit` and `predict([[n]])`.  sklearn raises `ValueError` on
an empty fit; on a singular centered design (one sample) its least-squares
solver returns the minimum-norm solution, slope 0.  Otherwise the fit is the
ordinary least-squares line and the prediction is its value at index `n`. -/
def olsPredictNext (ys : List ℚ) : Except String ℚ :=
  if ys.length = 0 then .error "ValueError: 0 samples" else
    let n : ℚ := ys.length
    let xs : List ℚ := (List.range ys.length).map fun i => (i : ℚ)
    let xm := xs.sum / n
    let ym := ys.sum / n
    let sxx := (xs.map fun x => (x - xm) ^ 2).sum
    let sxy := ((xs.zip ys).map fun p => (p.1 - xm) * (p.2 - ym)).sum
    let slope := if sxx = 0 then 0 else sxy / sxx
    .ok (ym - slope * xm + slope * n)

/-- Lines 104-109 for production: fit on the summary's production series and
predict one step past the last period. -/
def forecastProduction (t : Table) : Except String ℚ :=
  olsPredictNext ((forecastData t).map (·.production))

/-- The pipeline composed with the production forecast. -/
def pipelineForecastProd (sh : Sheet) : Except String ℚ :=
  (buildMerged sh).bind forecastProduction

/-- Pandas `mean()` of a series (line 114): NaN (`none`) for an empty series. -/
def rmean (xs : List ℚ) : Option ℚ :=
  if xs.length = 0 then none else some (xs.sum / xs.length)

/-- Pandas `std()` of a series (line 114): the sample variance (`ddof=1`), NaN
(`none`) for fewer than two values.  The standard deviation itself is its
square root, taken on the real side where it is used. -/
def sampleVarQ (xs : List ℚ) : Option ℚ :=
  if xs.length < 2 then none
  else some (((xs.map fun x => (x - xs.sum / xs.length) ^ 2).sum) / ((xs.length : ℚ) - 1))

/-- One metric's anomaly test (lines 117-120): the value lies above
`mean + 2*std` or below `mean - 2*std`.  When the mean or the std is NaN every
comparison is False, hence `False` when either is `none`. -/
def metricFlag (xs : List ℚ) (x : ℚ) : Prop :=
  match rmean xs, sampleVarQ xs with
  | some m, some v => (x : ℝ) > m + 2 * Real.sqrt v ∨ (x : ℝ) < m - 2 * Real.sqrt v
  | _, _ => False

/-- Lines 114-121: the summary rows whose production or sales value trips its
metric's band test. -/
def anomalies (sm : List SRow) : Set SRow :=
  { r | r ∈ sm ∧ (metricFlag (sm.map (·.production)) r.production ∨
      metricFlag (sm.map (·.sales)) r.sales) }

/-- Line 126: `filtered.to_csv(index=False)` writes every column of the
filtered frame, which has exactly `merged`'s columns; the header row is the
column list. -/
def csvHeader (t : Table) : List String := t.cols

/-! ## Concrete inputs used to evaluate the pipeline -/

/-- One sheet row: customer A, product X, production 100 and sales 90 for the
Oct-24 period, deficit 5. -/
def demoRow : RawRow where
  customer := "A"
  product := "X"
  cell := fun c =>
    if c = "Production Oct24" then some 100
    else if c = "Sales Oct24" then some 90
    else if c = "Dificit Qty." then some 5
    else none

/-- A sheet with one production column and one sales column for the same
period token `Oct24`, and a deficit column. -/
def demoSheet : Sheet where
  cols := ["Customer", "Product", "Production Oct24", "Sales Oct24", "Dificit Qty."]
  rows := [demoRow]

/-- One sheet row without a deficit cell. -/
def demoRowNoDef : RawRow where
  customer := "A"
  product := "X"
  cell := fun c =>
    if c = "Production Oct24" then some 100
    else if c = "Sales Oct24" then some 90
    else none

/-- The same sheet with the deficit column absent entirely. -/
def demoSheetNoDef : Sheet where
  cols := ["Customer", "Product", "Production Oct24", "Sales Oct24"]
  rows := [demoRowNoDef]

/-- A merge row whose Month string is `Production Oct23`: a recognized month
abbreviation and the two-digit year 23. -/
def demoDefRow : DefRow :=
  ⟨"A", "X", "Production Oct23", some 100, some 90, some 5⟩

/-! ## C1 — the outer merge never unifies production and sales rows -/

/-- C1: on a sheet whose production and sales columns carry the same period
token `Oct24` with non-null values for the same (customer, product), the two
reshapes' `Month` keys are the full column names `Production Oct24` and
`Sales Oct24`, which differ; line 27's outer merge on (Customer, Product,
Month) therefore produces two records for the one logical key, one with Sales
NaN and one with Production NaN, and no record carries both values — the
claim's "exactly one record carrying both values" fails on the code. -/
theorem outer_merge_keeps_metrics_apart :
    (prodData demoSheet).length = 1 ∧ (salesData demoSheet).length = 1 ∧
    (∃ l ∈ prodData demoSheet, ∃ r ∈ salesData demoSheet,
      l.customer = r.customer ∧ l.product = r.product ∧
      containsStr l.month "Oct24" = true ∧ containsStr r.month "Oct24" = true ∧
      l.value.isSome = true ∧ r.value.isSome = true ∧ l.month ≠ r.month) ∧
    (outerMerge (prodData demoSheet) (salesData demoSheet)).length = 2 ∧
    (∀ m ∈ outerMerge (prodData demoSheet) (salesData demoSheet),
      ¬(m.production.isSome = true ∧ m.sales.isSome = true)) := by
  decide

/-! ## C2 — the two-digit year is never extracted, the year always defaults -/

/-- C2: for the Month string `Production Oct23` — which contains the
recognized abbreviation `Oct` and the two-digit year 23 — line 36's regex
`r"(\\d{2})"` (a literal backslash followed by `d` twice) extracts nothing, so
the year falls back to the `fillna(25)` default: the canonical year is 2025,
not the claim's 2000 + 23 = 2023. -/
theorem year_always_defaults_to_2025 :
    monthTextF "Production Oct23" = some "Oct" ∧
    containsStr "Production Oct23" "23" = true ∧
    yearTextF "Production Oct23" = none ∧
    (normalizeRow demoDefRow).year = 2025 ∧
    (normalizeRow demoDefRow).date = some ⟨2025, 10, 1⟩ ∧
    (2025 : ℕ) ≠ 2000 + 23 := by
  decide

/-! ## C3 — a sheet without the deficit column makes line 46 raise -/

/-- C3: on a sheet lacking `Dificit Qty.`, lines 30-32 skip the deficit join,
but line 46's unconditional `merged['Dificit Qty.']` subscript then raises
`KeyError`; the pipeline does not complete. -/
theorem missing_deficit_column_raises :
    buildMerged demoSheetNoDef = .error "KeyError: Dificit Qty." := by
  rfl

deriving instance DecidableEq for Except

/-- The merged table the pipeline derives from `demoSheet`: the production and
sales rows stay separate (their Month keys differ), both carry deficit 5 and
normalize to October 2025. -/
def demoMergedTable : Table where
  hasDeficitCol := true
  cols := mergedColsList true
  rows :=
    [{ customer := "A", product := "X", month := "Production Oct24",
       production := some 100, sales := none, deficit := some 5,
       monthText := some "Oct", yearText := none, monthNum := some 10,
       year := 2025, date := some ⟨2025, 10, 1⟩ },
     { customer := "A", product := "X", month := "Sales Oct24",
       production := none, sales := some 90, deficit := some 5,
       monthText := some "Oct", yearText := none, monthNum := some 10,
       year := 2025, date := some ⟨2025, 10, 1⟩ }]

/-- The pipeline on `demoSheet` evaluates to `demoMergedTable`. -/
theorem buildMerged_demoSheet : buildMerged demoSheet = .ok demoMergedTable := rfl

/-! ## C6 — the forecaster has no "not enough data" state -/

/-- C6: `demoSheet` yields exactly one usable period, fewer than the two the
claim requires, yet the forecaster silently returns the numeric forecast 100
(sklearn's minimum-norm fit on one sample) instead of a defined
insufficient-data state; and with zero usable periods the fit raises a raw
`ValueError` rather than reporting "not enough data". -/
theorem single_period_forecast_returns_value :
    ((buildMerged demoSheet).map fun t => (forecastData t).length) = .ok 1 ∧
    pipelineForecastProd demoSheet = .ok 100 ∧
    olsPredictNext [] = .error "ValueError: 0 samples" := by
  refine ⟨rfl, ?_, rfl⟩
  have h2 : (forecastData demoMergedTable).map (·.production) = [0 + 100 + 0] := rfl
  calc pipelineForecastProd demoSheet
      = forecastProduction demoMergedTable := by
        simp [pipelineForecastProd, buildMerged_demoSheet, Except.bind]
    _ = olsPredictNext [0 + 100 + 0] := by rw [forecastProduction, h2]
    _ = .ok 100 := by norm_num [olsPredictNext, List.range_succ]

/-! ## C10 — the CSV export carries the derived helper columns -/

/-- C10: whenever the pipeline completes (it completes exactly on sheets with
the deficit column, by C3), the exported CSV's header is `merged`'s full
column list — the melt/merge/deficit columns followed by the five helper
columns MonthText, YearText, MonthNum, Year and Date added during period
normalization — and every helper column is among the exported columns. -/
theorem csv_export_has_helper_columns (sh : Sheet) (h : deficitColName ∈ sh.cols) :
    (buildMerged sh).map csvHeader =
      .ok ["Customer", "Product", "Month", "Production", "Sales", "Dificit Qty.",
        "MonthText", "YearText", "MonthNum", "Year", "Date"] ∧
    ∀ c ∈ (["MonthText", "YearText", "MonthNum", "Year", "Date"] : List String),
      c ∈ ["Customer", "Product", "Month", "Production", "Sales", "Dificit Qty.",
        "MonthText", "YearText", "MonthNum", "Year", "Date"] := by
  constructor
  · have h' : "Dificit Qty." ∈ sh.cols := h
    simp [buildMerged, coerceNumericStep, csvHeader, mergedColsList, deficitColName,
      h', Except.map]
  · decide

/-- C10 witness: the demo sheet's export really shows all five helper columns. -/
theorem csv_export_has_helper_columns_witness :
    (buildMerged demoSheet).map csvHeader =
      .ok ["Customer", "Product", "Month", "Production", "Sales", "Dificit Qty.",
        "MonthText", "YearText", "MonthNum", "Year", "Date"] ∧
    ∀ c ∈ (["MonthText", "YearText", "MonthNum", "Year", "Date"] : List String),
      c ∈ ["Customer", "Product", "Month", "Production", "Sales", "Dificit Qty.",
        "MonthText", "YearText", "MonthNum", "Year", "Date"] :=
  csv_export_has_helper_columns demoSheet (by decide)

/-! ## C5 — an unrecognized month is recovered as a null date, not a crash -/

/-- The rows the pipeline derives from a sheet, spelled out. -/
theorem buildMerged_ok_rows (sh : Sheet) (t : Table) (ht : buildMerged sh = .ok t) :
    t.rows =
      ((if decide (deficitColName ∈ sh.cols) = true then
          leftJoinDeficit (outerMerge (prodData sh) (salesData sh)) (deficitData sh)
        else addNoDeficit (outerMerge (prodData sh) (salesData sh))).map normalizeRow) := by
  simp only [buildMerged, coerceNumericStep] at ht
  split at ht
  next hcond =>
    simp only [Except.ok.injEq] at ht
    subst ht
    simp [hcond]
  next => exact absurd ht (by simp)

/-- C5: the pipeline never aborts on a period token (whenever the deficit
column exists — its absence aborts for the unrelated C3 reason — the build
succeeds), and every merged row whose Month string contains no recognized
month abbreviation gets a NaT (`none`) canonical date, so it belongs to no
date-keyed view `merged[merged['Date'] == d]` while still being a row of the
table. -/
theorem unparsed_month_recovered_as_null_date :
    (∀ sh : Sheet, deficitColName ∈ sh.cols → ∃ t, buildMerged sh = .ok t) ∧
    (∀ (sh : Sheet) (t : Table), buildMerged sh = .ok t →
      ∀ r ∈ t.rows, monthTextF r.month = none →
        r.date = none ∧ ∀ d : Date, r ∉ rowsAt t d) := by
  constructor
  · intro sh h
    have h' : "Dificit Qty." ∈ sh.cols := h
    refine ⟨⟨true, mergedColsList true,
      List.map normalizeRow
        (leftJoinDeficit (outerMerge (prodData sh) (salesData sh)) (deficitData sh))⟩, ?_⟩
    simp [buildMerged, coerceNumericStep, deficitColName, h']
  · intro sh t ht r hr hm
    have hdate : r.date = none := by
      rw [buildMerged_ok_rows sh t ht] at hr
      obtain ⟨r', -, rfl⟩ := List.mem_map.1 hr
      have hm' : monthTextF r'.month = none := hm
      simp [normalizeRow, hm']
    refine ⟨hdate, fun d hd => ?_⟩
    rw [rowsAt, List.mem_filter] at hd
    have := of_decide_eq_true hd.2
    rw [hdate] at this
    exact Option.noConfusion this

/-! ## C7 — the trend summary sums every merged row of a date, filters apart -/

/-- Folding `+ f r` from an initial value is the initial value plus the sum of
the mapped list. -/
theorem foldl_add_map (f : Row → ℚ) (l : List Row) (init : ℚ) :
    l.foldl (fun a r => a + f r) init = init + (l.map f).sum := by
  induction l generalizing init with
  | nil => simp
  | cons x xs ih => simp [ih, add_assoc]

/-- C7: any row of the trend chart's summary carries, as its production (and
sales) value, the null-safe sum — NaN as 0, an all-NaN group giving 0 — of
that metric over ALL merged rows with that canonical date; the customer and
product selections in scope are not consulted (the summary is the unfiltered
`monthlySummary`). -/
theorem trend_chart_sums_all_merged_rows (t : Table) (dSel : Date)
    (fc fp : List String) (s : SRow) (hs : s ∈ trendSummary t dSel fc fp) :
    s.production =
      ((t.rows.filter fun r => decide (r.date = some s.date)).map
        fun r => r.production.getD 0).sum ∧
    s.sales =
      ((t.rows.filter fun r => decide (r.date = some s.date)).map
        fun r => r.sales.getD 0).sum ∧
    trendSummary t dSel fc fp = monthlySummary t := by
  refine ⟨?_, ?_, rfl⟩ <;>
  · obtain ⟨d, -, rfl⟩ := List.mem_map.1 hs
    simp [groupProdSum, groupSalesSum, rowsAt, foldl_add_map]

/-- The one summary row the demo table produces. -/
def demoSRow : SRow := ⟨⟨2025, 10, 1⟩, 0 + 100 + 0, 0 + 0 + 90⟩

/-- C7 witness: the demo table's October-2025 summary row really equals the
null-safe sums over both its merged rows. -/
theorem trend_chart_sums_all_merged_rows_witness :
    demoSRow.production =
      ((demoMergedTable.rows.filter fun r => decide (r.date = some demoSRow.date)).map
        fun r => r.production.getD 0).sum ∧
    demoSRow.sales =
      ((demoMergedTable.rows.filter fun r => decide (r.date = some demoSRow.date)).map
        fun r => r.sales.getD 0).sum ∧
    trendSummary demoMergedTable ⟨2025, 10, 1⟩ [] [] = monthlySummary demoMergedTable :=
  trend_chart_sums_all_merged_rows demoMergedTable ⟨2025, 10, 1⟩ [] [] demoSRow
    (List.mem_singleton.mpr rfl)

/-! ## C9 — column selection is a substring test only; months are not checked -/

/-- A sheet with a production-named column that carries no month token at all. -/
def demoSheet9 : Sheet where
  cols := ["Customer", "Product", "Production Total"]
  rows := [⟨"A", "X", fun c => if c = "Production Total" then some 7 else none⟩]

/-- C9 counterexample: the column `Production Total` contains no recognized
month token, yet lines 18-19 select it (they test only the
"Production"/"Sales" substring) and the melt reshapes it — the claim's "a
column lacking any recognized month token is excluded from the reshape" is
false on the code. -/
theorem monthless_column_is_still_reshaped :
    "Production Total" ∈ productionCols demoSheet9.cols ∧
    monthTextF "Production Total" = none ∧
    ∃ l ∈ prodData demoSheet9, l.month = "Production Total" := by
  decide

/-- C9 amended: the period extractor selects exactly the columns whose name
contains the substring "Production" (resp. "Sales"); month tokens play no
part in the selection, so a metric column without a recognized month token is
still reshaped (its rows only receive a null canonical date later, at
normalization — see C5). -/
theorem column_selection_is_substring_only (cols : List String) (c : String) :
    (c ∈ productionCols cols ↔ c ∈ cols ∧ containsStr c "Production" = true) ∧
    (c ∈ salesCols cols ↔ c ∈ cols ∧ containsStr c "Sales" = true) := by
  simp [productionCols, salesCols, List.mem_filter]

/-! ## C8 — the 2-sigma rule, and no-error emptiness below two periods -/

/-- C8: (1) whenever a metric's mean and sample variance are defined, the
anomaly test for a value is exactly "outside mean ± 2·(sample standard
deviation)"; (2) with fewer than two summary periods the standard deviation
is undefined (NaN), every band comparison is False, and the detector returns
the empty set — a valid outcome, not a failure. -/
theorem anomaly_band_and_degenerate_empty :
    (∀ (xs : List ℚ) (x m v : ℚ), rmean xs = some m → sampleVarQ xs = some v →
      (metricFlag xs x ↔ |(x : ℝ) - m| > 2 * Real.sqrt v)) ∧
    (∀ sm : List SRow, sm.length < 2 → anomalies sm = ∅) := by
  constructor
  · intro xs x m v hm hv
    simp only [metricFlag, hm, hv]
    constructor
    · rintro (h | h) <;> rw [gt_iff_lt, lt_abs] <;> [left; right] <;> linarith
    · intro h
      rw [gt_iff_lt, lt_abs] at h
      rcases h with h | h <;> [left; right] <;> linarith
  · intro sm h
    have hv1 : sampleVarQ (sm.map (·.production)) = none := by
      simp [sampleVarQ, List.length_map, h]
    have hv2 : sampleVarQ (sm.map (·.sales)) = none := by
      simp [sampleVarQ, List.length_map, h]
    ext r
    simp only [anomalies, Set.mem_setOf_eq, Set.mem_empty_iff_false, iff_false, not_and]
    intro hr
    rintro (hflag | hflag)
    · cases hcm : rmean (sm.map (·.production)) <;>
        simp [metricFlag, hv1, hcm] at hflag
    · cases hcm : rmean (sm.map (·.sales)) <;>
        simp [metricFlag, hv2, hcm] at hflag

/-! ## C4 — previous- and next-comparison differences coincide (not negate) -/

section ListLemmas

variable {α β γ : Type}

/-- Flat-mapping a filtered list is flat-mapping with an emptied-out guard. -/
theorem filter_flatMap (l : List α) (p : α → Bool) (g : α → List β) :
    (l.filter p).flatMap g = l.flatMap fun a => if p a then g a else [] := by
  induction l with
  | nil => simp
  | cons x xs ih => by_cases h : p x <;> simp [h, ih]

/-- Mapping a filtered list is flat-mapping singleton-or-nothing. -/
theorem filter_map_eq_flatMap (l : List α) (p : α → Bool) (f : α → β) :
    (l.filter p).map f = l.flatMap fun a => if p a then [f a] else [] := by
  induction l with
  | nil => simp
  | cons x xs ih => by_cases h : p x <;> simp [h, ih]

/-- Flat-mapping to nothing is nothing. -/
theorem flatMap_const_nil (ys : List β) : (ys.flatMap fun _ => ([] : List γ)) = [] := by
  induction ys with
  | nil => simp
  | cons y ys ih => simp [ih]

/-- A guard outside a flat-map may be pushed onto every element. -/
theorem if_flatMap (c : Prop) [Decidable c] (l : List α) (g : α → List γ) :
    (if c then l.flatMap g else []) = l.flatMap fun a => if c then g a else [] := by
  by_cases h : c <;> simp [h, flatMap_const_nil]

/-- Pointwise appends distribute over a flat-map, up to multiset identity. -/
theorem coe_flatMap_append (ys : List β) (p q : β → List γ) :
    ((ys.flatMap fun y => p y ++ q y : List γ) : Multiset γ) =
      ((ys.flatMap p : List γ) : Multiset γ) + ((ys.flatMap q : List γ) : Multiset γ) := by
  induction ys with
  | nil => simp
  | cons y ys ih =>
    simp only [List.flatMap_cons, ← Multiset.coe_add, ih]
    abel

/-- A doubly nested flat-map enumerates the same multiset in either nesting
order. -/
theorem coe_flatMap_swap (xs : List α) (ys : List β) (h : α → β → List γ) :
    ((xs.flatMap fun x => ys.flatMap fun y => h x y : List γ) : Multiset γ) =
      ((ys.flatMap fun y => xs.flatMap fun x => h x y : List γ) : Multiset γ) := by
  induction xs with
  | nil => simp [flatMap_const_nil]
  | cons x xs ih =>
    simp only [List.flatMap_cons, ← Multiset.coe_add, ih, coe_flatMap_append]

end ListLemmas

/-- The three chained filters of lines 55-59 collapse into one filter over the
merged rows. -/
theorem filteredView_eq_filter (t : Table) (d : Date) (fc fp : List String) :
    filteredView t d fc fp = t.rows.filter fun r =>
      decide (r.date = some d) && (fc.isEmpty || decide (r.customer ∈ fc)) &&
        (fp.isEmpty || decide (r.product ∈ fp)) := by
  cases hfc : fc.isEmpty <;> cases hfp : fp.isEmpty <;>
    simp [filteredView, applyCustFilter, applyProdFilter, rowsAt, hfc, hfp,
      List.filter_filter, Bool.and_comm, Bool.and_assoc, Bool.and_left_comm]

/-- C4 amended: for adjacent dates `dPrev < dCurr`, the previous-month
comparison computed with `dCurr` selected and the next-month comparison
computed with `dPrev` selected contain, as multisets, exactly the same
difference records — the comparisons coincide rather than negate, because
line 90 computes `current − prev` and line 98 computes `next − current`,
both of which are the later period minus the earlier one. -/
theorem comparison_diffs_coincide (t : Table) (dPrev dCurr : Date)
    (fc fp : List String) (h : adjacentDates t dPrev dCurr) :
    ((compPrev t dCurr dPrev fc fp : List CompRow) : Multiset CompRow) =
      ((compNext t dPrev dCurr fc fp : List CompRow) : Multiset CompRow) := by
  clear h
  simp only [compPrev, compNext, innerJoinCP, filteredView_eq_filter, rowsAt,
    List.map_flatMap, List.map_map, filter_map_eq_flatMap, filter_flatMap,
    if_flatMap, Function.comp]
  conv_rhs => rw [coe_flatMap_swap]
  congr 1
  congr 1
  funext a
  congr 1
  funext b
  split_ifs <;>
    simp_all [Bool.and_eq_true, Bool.or_eq_true, decide_eq_true_eq, List.isEmpty_iff]

/-- A merged row with the given metrics and canonical date (the string-derived
helper fields play no part in the comparison views). -/
def mkRowD (c p : String) (prod sales : Option ℚ) (d : Date) : Row where
  customer := c
  product := p
  month := ""
  production := prod
  sales := sales
  deficit := none
  monthText := none
  yearText := none
  monthNum := some d.month
  year := d.year
  date := some d

/-- October 2025. -/
def dOct : Date := ⟨2025, 10, 1⟩

/-- November 2025. -/
def dNov : Date := ⟨2025, 11, 1⟩

/-- A table with the pair (A, X) present in two adjacent periods:
production 100 then 120, sales 90 then 95. -/
def demoCompTable : Table where
  hasDeficitCol := true
  cols := mergedColsList true
  rows := [mkRowD "A" "X" (some 100) (some 90) dOct,
           mkRowD "A" "X" (some 120) (some 95) dNov]

/-- C4 witness: on the two-period demo table, the November previous-month
comparison and the October next-month comparison really carry the same
multiset of difference records. -/
theorem comparison_diffs_coincide_witness :
    ((compPrev demoCompTable dNov dOct [] [] : List CompRow) : Multiset CompRow) =
      ((compNext demoCompTable dOct dNov [] [] : List CompRow) : Multiset CompRow) :=
  comparison_diffs_coincide demoCompTable dOct dNov [] []
    (by unfold adjacentDates; decide)

/-- C4 counterexample: with (A, X) at 100 in October and 120 in November, the
previous-month comparison at November and the next-month comparison at
October both report `Production_Diff = 120 − 100`; the claim's negation
relation fails since `120 − 100 ≠ −(120 − 100)`. -/
theorem comparison_negation_fails :
    (compPrev demoCompTable dNov dOct [] []).map (·.productionDiff) =
      [some ((120 : ℚ) - 100)] ∧
    (compNext demoCompTable dOct dNov [] []).map (·.productionDiff) =
      [some ((120 : ℚ) - 100)] ∧
    ¬(some ((120 : ℚ) - 100) = some (-((120 : ℚ) - 100))) := by
  refine ⟨rfl, rfl, ?_⟩
  simp only [Option.some.injEq]
  norm_num

end Analytics
